import Mathlib

/-!
Verification of `hardkeys.c` from the MaemoSiddur repository: a Python 2
C extension module exposing one operation, `grab_zoom_keys(widget, grab)`,
which writes the `_HILDON_ZOOM_KEY_ATOM` property on the X11 window of the
given GTK widget.

The X display-server property store is modelled as a function from
(window XID, property name) to an optional property value; atoms are
modelled by their name strings.  Python-level values are modelled by a
small inductive type carrying a runtime type tag; the process-wide global
`PyGObject_Type` set by `inithardkeys` is modelled as a module-state
record.  Since `XChangeProperty` only queues a request whose failure the
C code never observes, the call takes a Boolean `accepted` oracle saying
whether the display server applies the request.
-/

namespace Hardkeys

/-- Value of an X11 window property: its type atom, its format
(8, 16 or 32 bits per element) and its list of elements. -/
structure PropValue where
  type : Nat
  format : Nat
  data : List Int
deriving DecidableEq, Repr

/-- The predefined X11 atom XA_INTEGER (Xatom.h). -/
def XA_INTEGER : Nat := 19

/-- The display server's property store: window XID and property name
(atoms are modelled by their names) to the stored value, if any. -/
abbrev XServerState := Nat → String → Option PropValue

/-- Atoms are modelled by their name strings, so interning a name returns
the name itself. -/
def XInternAtom (name : String) : String := name

/-- Modes accepted by XChangeProperty. -/
inductive PropMode where
  | PropModeReplace
  | PropModePrepend
  | PropModeAppend
deriving DecidableEq, Repr

/-- XChangeProperty: queue a property-change request for window `win`.
`accepted` says whether the display server applies the request (a
rejection is only reported asynchronously, which the caller in this
module never observes).  In replace mode the prior value is discarded;
prepend/append concatenate when type and format match an existing value
and otherwise fail with BadMatch, leaving the store unchanged. -/
def XChangeProperty (accepted : Bool) (st : XServerState) (win : Nat)
    (property : String) (ty : Nat) (format : Nat) (mode : PropMode)
    (data : List Int) : XServerState :=
  if accepted then
    fun w p =>
      if w = win ∧ p = property then
        match mode, st win property with
        | .PropModeReplace, _ => some ⟨ty, format, data⟩
        | _, Option.none => some ⟨ty, format, data⟩
        | .PropModePrepend, some old =>
            if old.type = ty ∧ old.format = format then
              some ⟨ty, format, data ++ old.data⟩
            else st w p
        | .PropModeAppend, some old =>
            if old.type = ty ∧ old.format = format then
              some ⟨ty, format, old.data ++ data⟩
            else st w p
      else st w p
  else st

/-- A GTK widget, reduced to what the module reads from it: the XID of
its realized GdkWindow (`widget->window`).  The model's domain is
realized widgets; an unrealized widget has a NULL `window` and the C
code's behaviour on it is undefined. -/
structure GtkWidget where
  window : Nat
deriving DecidableEq, Repr

/-- Runtime type tags of the Python values the module can meet. -/
inductive PyType where
  | GObjectType
  | IntType
  | StrType
  | NoneType
deriving DecidableEq, Repr

/-- The native object wrapped by a gobject.GObject instance: either a
GTK widget, or some other GObject that is no widget.  The O! check in
the source validates against the base gobject.GObject type only, so it
accepts both; `garbage` holds whatever bits a non-widget object carries
at the offset the code later reads as `widget->window`. -/
inductive GObjectData where
  | widget (w : GtkWidget)
  | nonWidget (garbage : Nat)
deriving DecidableEq, Repr

/-- Python values as seen by the module: a gobject.GObject instance
(wrapping a widget or not), a plain integer, a string (a stand-in for
any non-GObject object), or None. -/
inductive PyValue where
  | gobject (d : GObjectData)
  | int (n : Int)
  | str (s : String)
  | none
deriving DecidableEq, Repr

/-- Runtime type of a Python value. -/
def PyValue.typeOf : PyValue → PyType
  | .gobject _ => .GObjectType
  | .int _ => .IntType
  | .str _ => .StrType
  | .none => .NoneType

/-- The isinstance check performed by the O! converter of
PyArg_ParseTuple. -/
def isInstanceOf (t : PyType) (v : PyValue) : Bool :=
  v.typeOf = t

/-- Process-wide state of the extension module: the static global
`PyGObject_Type` resolved at load time. -/
structure ModuleState where
  pygobject_type : PyType
deriving DecidableEq, Repr

/-- inithardkeys: registers the module and stores a reference to
gobject.GObject in the static global `PyGObject_Type`.  The
import-failure branch (the global left NULL, after which the O!
check dereferences a NULL type) is outside the model. -/
def inithardkeys : ModuleState :=
  { pygobject_type := PyType.GObjectType }

/-- Errors PyArg_ParseTuple can raise for the format "O!i". -/
inductive ParseError where
  | badArgCount (got : Nat)
  | badArgType
  | overflow
deriving DecidableEq, Repr

/-- Smallest C int (the target platforms have 32-bit int). -/
def cIntMin : Int := -2147483648

/-- Largest C int (the target platforms have 32-bit int). -/
def cIntMax : Int := 2147483647

/-- PyArg_ParseTuple with format "O!i": first the argument count is
checked against the format (exactly two), then the first argument is
checked with isinstance against the type passed for O!, then the second
argument is converted to a C int, raising OverflowError when it does
not fit. -/
def PyArg_ParseTuple_ObjInt (tyref : PyType) (args : List PyValue) :
    Except ParseError (PyValue × Int) :=
  match args with
  | [a, b] =>
    if isInstanceOf tyref a then
      match b with
      | .int n =>
          if cIntMin ≤ n ∧ n ≤ cIntMax then .ok (a, n)
          else .error .overflow
      | _ => .error .badArgType
    else .error .badArgType
  | _ => .error (.badArgCount args.length)

/-- The unchecked GTK_WIDGET cast of `py_widget->obj`.  The O! check
only guarantees a gobject.GObject, not a widget: on a non-widget
GObject the cast is undefined behaviour, modelled here as reading the
bits found at the `widget->window` offset of that object; on a
non-GObject value (never reached after a successful parse) it is
likewise undefined, modelled by a junk widget. -/
def asGtkWidget : PyValue → GtkWidget
  | .gobject (.widget w) => w
  | .gobject (.nonWidget g) => ⟨g⟩
  | _ => ⟨0⟩

/-- hardkeys_grab_zoom_keys: parse the arguments as (GObject widget,
int grab); on parse failure return NULL with the exception set and touch
nothing.  Otherwise resolve the widget's X window, intern
"_HILDON_ZOOM_KEY_ATOM", and issue one XChangeProperty request storing
the single 32-bit XA_INTEGER element `grab ? 1 : 0` in replace mode,
then return Py_None.  `accepted` is the display server's verdict on the
request, which the code never inspects. -/
def grab_zoom_keys (ms : ModuleState) (st : XServerState)
    (accepted : Bool) (args : List PyValue) :
    Except ParseError PyValue × XServerState :=
  match PyArg_ParseTuple_ObjInt ms.pygobject_type args with
  | .error e => (.error e, st)
  | .ok (py_widget, grab) =>
      let widget := asGtkWidget py_widget
      let win := widget.window
      let val : Int := if grab ≠ 0 then 1 else 0
      let st' := XChangeProperty accepted st win
        (XInternAtom "_HILDON_ZOOM_KEY_ATOM") XA_INTEGER 32
        PropMode.PropModeReplace [val]
      (.ok PyValue.none, st')

/-- The property store with no property set anywhere, used as a concrete
starting state. -/
def emptyX : XServerState := fun _ _ => Option.none

end Hardkeys

namespace Hardkeys

/-- A concrete display-server state holding a prior value of the zoom-key
property on window 7, used to exhibit independence from prior state. -/
def demoX : XServerState := fun w p =>
  if w = 7 ∧ p = "_HILDON_ZOOM_KEY_ATOM" then some ⟨XA_INTEGER, 32, [0]⟩
  else Option.none

/-- C1: for every realized widget and grab ∈ {true, false}, after the call
the property "_HILDON_ZOOM_KEY_ATOM" on the widget's window holds the
integer 1 when grab is true and 0 when grab is false. -/
theorem grab_zoom_keys_sets_flag (st : XServerState) (w : GtkWidget) (b : Bool) :
    (grab_zoom_keys inithardkeys st true
        [PyValue.gobject (GObjectData.widget w), PyValue.int (if b then 1 else 0)]).2
      w.window "_HILDON_ZOOM_KEY_ATOM"
      = some ⟨XA_INTEGER, 32, [if b then 1 else 0]⟩ := by
  cases b <;>
    simp [grab_zoom_keys, PyArg_ParseTuple_ObjInt, isInstanceOf, PyValue.typeOf,
      asGtkWidget, XChangeProperty, XInternAtom, inithardkeys, cIntMin, cIntMax]

/-- C2, counterexample: a non-widget instance of gobject.GObject is not
a widget-typed object, yet it raises no argument-type error: the O!
check validates against the base GObject type only, so the parse
succeeds and the call proceeds into the unchecked GTK_WIDGET cast
instead of aborting. -/
theorem grab_zoom_keys_non_widget_gobject_no_error :
    PyArg_ParseTuple_ObjInt inithardkeys.pygobject_type
        [PyValue.gobject (GObjectData.nonWidget 0), PyValue.int 1]
      = Except.ok (PyValue.gobject (GObjectData.nonWidget 0), 1) ∧
    (grab_zoom_keys inithardkeys emptyX true
        [PyValue.gobject (GObjectData.nonWidget 0), PyValue.int 1]).1
      ≠ Except.error ParseError.badArgType := by
  refine ⟨rfl, ?_⟩
  intro h
  exact Except.noConfusion h

/-- C2, amended: a two-argument call whose first argument is not a
GObject-typed object raises an argument-type error and performs no
property write: the whole store is returned unchanged.  (A non-widget
GObject, by contrast, passes the check and reaches the unchecked
cast.) -/
theorem grab_zoom_keys_non_widget_type_error (st : XServerState)
    (accepted : Bool) (v b : PyValue) (h : v.typeOf ≠ PyType.GObjectType) :
    grab_zoom_keys inithardkeys st accepted [v, b]
      = (Except.error ParseError.badArgType, st) := by
  simp [grab_zoom_keys, PyArg_ParseTuple_ObjInt, isInstanceOf, inithardkeys, h]

/-- Witness for C2 at the concrete call grab_zoom_keys(0, 1) on the empty
store. -/
theorem grab_zoom_keys_non_widget_type_error_witness :
    (PyValue.int 0).typeOf ≠ PyType.GObjectType ∧
    grab_zoom_keys inithardkeys emptyX true [PyValue.int 0, PyValue.int 1]
      = (Except.error ParseError.badArgType, emptyX) :=
  ⟨by decide,
   grab_zoom_keys_non_widget_type_error emptyX true (PyValue.int 0)
     (PyValue.int 1) (by decide)⟩

/-- C3: a call with fewer or more than two arguments raises an
argument-count error and performs no property write. -/
theorem grab_zoom_keys_arg_count_error (st : XServerState) (accepted : Bool)
    (args : List PyValue) (h : args.length ≠ 2) :
    grab_zoom_keys inithardkeys st accepted args
      = (Except.error (ParseError.badArgCount args.length), st) := by
  match args with
  | [] => rfl
  | [_] => rfl
  | [_, _] => exact absurd rfl h
  | _ :: _ :: _ :: _ => rfl

/-- Witness for C3 at the concrete zero-argument call on the empty store. -/
theorem grab_zoom_keys_arg_count_error_witness :
    ([] : List PyValue).length ≠ 2 ∧
    grab_zoom_keys inithardkeys emptyX true []
      = (Except.error (ParseError.badArgCount 0), emptyX) :=
  ⟨by decide, grab_zoom_keys_arg_count_error emptyX true [] (by decide)⟩

/-- C4: every call that passes argument parsing returns Py_None, for every
verdict the display server gives on the property-change request: the
request's outcome is never inspected or surfaced. -/
theorem grab_zoom_keys_returns_none_ignores_write (st : XServerState)
    (args : List PyValue) (pw : PyValue) (g : Int)
    (h : PyArg_ParseTuple_ObjInt inithardkeys.pygobject_type args
          = Except.ok (pw, g)) :
    ∀ accepted : Bool,
      (grab_zoom_keys inithardkeys st accepted args).1 = Except.ok PyValue.none := by
  intro accepted
  simp [grab_zoom_keys, h]

/-- Witness for C4 at a concrete parsed call, with the display server
rejecting the request. -/
theorem grab_zoom_keys_returns_none_ignores_write_witness :
    PyArg_ParseTuple_ObjInt inithardkeys.pygobject_type
        [PyValue.gobject (GObjectData.widget ⟨3⟩), PyValue.int 1]
      = Except.ok (PyValue.gobject (GObjectData.widget ⟨3⟩), 1) ∧
    (grab_zoom_keys inithardkeys emptyX false
        [PyValue.gobject (GObjectData.widget ⟨3⟩), PyValue.int 1]).1 = Except.ok PyValue.none :=
  ⟨rfl,
   grab_zoom_keys_returns_none_ignores_write emptyX
     [PyValue.gobject (GObjectData.widget ⟨3⟩), PyValue.int 1] (PyValue.gobject (GObjectData.widget ⟨3⟩)) 1 rfl false⟩

/-- C5: calling twice in succession with the same grab value leaves the
zoom-key property at the same final value as calling once. -/
theorem grab_zoom_keys_idempotent (st : XServerState) (w : GtkWidget) (g : Int) :
    (grab_zoom_keys inithardkeys
        (grab_zoom_keys inithardkeys st true
          [PyValue.gobject (GObjectData.widget w), PyValue.int g]).2
        true [PyValue.gobject (GObjectData.widget w), PyValue.int g]).2
      w.window "_HILDON_ZOOM_KEY_ATOM"
      = (grab_zoom_keys inithardkeys st true
          [PyValue.gobject (GObjectData.widget w), PyValue.int g]).2
          w.window "_HILDON_ZOOM_KEY_ATOM" := by
  by_cases hr : cIntMin ≤ g ∧ g ≤ cIntMax <;>
    simp [grab_zoom_keys, PyArg_ParseTuple_ObjInt, isInstanceOf, PyValue.typeOf,
      asGtkWidget, XChangeProperty, XInternAtom, inithardkeys, hr]

/-- C6: a successful call stores, under the fixed name
"_HILDON_ZOOM_KEY_ATOM", a one-element XA_INTEGER property of format 32
whose element is grab ? 1 : 0, in replace mode: the stored value is the
same whatever the store previously held. -/
theorem grab_zoom_keys_write_format (st : XServerState) (w : GtkWidget)
    (g : Int) (h1 : cIntMin ≤ g) (h2 : g ≤ cIntMax) :
    (grab_zoom_keys inithardkeys st true [PyValue.gobject (GObjectData.widget w), PyValue.int g]).2
        w.window "_HILDON_ZOOM_KEY_ATOM"
      = some ⟨XA_INTEGER, 32, [if g ≠ 0 then 1 else 0]⟩ := by
  simp [grab_zoom_keys, PyArg_ParseTuple_ObjInt, isInstanceOf, PyValue.typeOf,
    asGtkWidget, XChangeProperty, XInternAtom, inithardkeys, h1, h2]

/-- Witness for C6 at grab = 5 on a store already holding a prior value of
the property. -/
theorem grab_zoom_keys_write_format_witness :
    cIntMin ≤ (5 : Int) ∧ (5 : Int) ≤ cIntMax ∧
    (grab_zoom_keys inithardkeys demoX true
        [PyValue.gobject (GObjectData.widget ⟨7⟩), PyValue.int 5]).2 7 "_HILDON_ZOOM_KEY_ATOM"
      = some ⟨XA_INTEGER, 32, [1]⟩ :=
  ⟨by decide, by decide,
   grab_zoom_keys_write_format demoX ⟨7⟩ 5 (by decide) (by decide)⟩

end Hardkeys

namespace Hardkeys

/-- C7: frame property: a call of grab_zoom_keys changes nothing in the
display-server state outside the "_HILDON_ZOOM_KEY_ATOM" property of the
given widget's window — every other (window, property) cell keeps its
prior value, on the success path and on every error path. -/
theorem grab_zoom_keys_frame (st : XServerState) (accepted : Bool)
    (w : GtkWidget) (g : Int) (w' : Nat) (p' : String)
    (h : w' ≠ w.window ∨ p' ≠ "_HILDON_ZOOM_KEY_ATOM") :
    (grab_zoom_keys inithardkeys st accepted
        [PyValue.gobject (GObjectData.widget w), PyValue.int g]).2 w' p'
      = st w' p' := by
  cases accepted <;>
    rcases h with h | h <;>
      by_cases hr : cIntMin ≤ g ∧ g ≤ cIntMax <;>
        simp [grab_zoom_keys, PyArg_ParseTuple_ObjInt, isInstanceOf,
          PyValue.typeOf, asGtkWidget, XChangeProperty, XInternAtom,
          inithardkeys, hr, h]

/-- Witness for C7: writing on window 7 leaves a different window's cell
of the same property untouched. -/
theorem grab_zoom_keys_frame_witness :
    ((3 : Nat) ≠ (GtkWidget.mk 7).window ∨
      "_HILDON_ZOOM_KEY_ATOM" ≠ "_HILDON_ZOOM_KEY_ATOM") ∧
    (grab_zoom_keys inithardkeys emptyX true
        [PyValue.gobject (GObjectData.widget ⟨7⟩), PyValue.int 1]).2 3 "_HILDON_ZOOM_KEY_ATOM"
      = emptyX 3 "_HILDON_ZOOM_KEY_ATOM" :=
  ⟨Or.inl (by decide),
   grab_zoom_keys_frame emptyX true ⟨7⟩ 1 3 "_HILDON_ZOOM_KEY_ATOM"
     (Or.inl (by decide))⟩

/-- C8: module initialization stores gobject.GObject as the process-wide
type reference, and every call of grab_zoom_keys validates its first
argument against exactly the stored reference: with a well-typed second
argument, the call fails with the argument-type error precisely when the
first argument is not an instance of the stored type. -/
theorem inithardkeys_stores_type_used_by_check :
    inithardkeys.pygobject_type = PyType.GObjectType ∧
    ∀ (ms : ModuleState) (st : XServerState) (accepted : Bool)
      (v : PyValue) (n : Int),
      ((grab_zoom_keys ms st accepted [v, PyValue.int n]).1
          = Except.error ParseError.badArgType
        ↔ isInstanceOf ms.pygobject_type v = false) := by
  refine ⟨rfl, ?_⟩
  intro ms st accepted v n
  by_cases h : isInstanceOf ms.pygobject_type v
  · by_cases hr : cIntMin ≤ n ∧ n ≤ cIntMax <;>
      simp [grab_zoom_keys, PyArg_ParseTuple_ObjInt, h, hr]
  · simp [grab_zoom_keys, PyArg_ParseTuple_ObjInt, h]

/-- C9, counterexample: the grab argument is not accepted as an arbitrary
integer — at grab = 2^31 the "i" converter overflows the C int, the call
raises OverflowError and nothing is written. -/
theorem grab_zoom_keys_overflow_counterexample :
    grab_zoom_keys inithardkeys emptyX true
        [PyValue.gobject (GObjectData.widget ⟨1⟩), PyValue.int 2147483648]
      = (Except.error ParseError.overflow, emptyX) := rfl

/-- C9, amended: the grab argument is accepted as any integer that fits
the platform C int, not only a boolean, and for every such integer the
call succeeds and the value written is 1 exactly when grab is nonzero
and 0 when grab is zero. -/
theorem grab_zoom_keys_any_cint (st : XServerState) (w : GtkWidget)
    (g : Int) (h1 : cIntMin ≤ g) (h2 : g ≤ cIntMax) :
    (grab_zoom_keys inithardkeys st true
        [PyValue.gobject (GObjectData.widget w), PyValue.int g]).1 = Except.ok PyValue.none ∧
    (grab_zoom_keys inithardkeys st true
        [PyValue.gobject (GObjectData.widget w), PyValue.int g]).2 w.window "_HILDON_ZOOM_KEY_ATOM"
      = some ⟨XA_INTEGER, 32, [if g = 0 then 0 else 1]⟩ := by
  constructor <;>
    simp [grab_zoom_keys, PyArg_ParseTuple_ObjInt, isInstanceOf, PyValue.typeOf,
      asGtkWidget, XChangeProperty, XInternAtom, inithardkeys, h1, h2]

/-- Witness for the amended C9 at the non-boolean value grab = -7, which
is accepted and writes 1. -/
theorem grab_zoom_keys_any_cint_witness :
    cIntMin ≤ (-7 : Int) ∧ (-7 : Int) ≤ cIntMax ∧
    ((grab_zoom_keys inithardkeys emptyX true
        [PyValue.gobject (GObjectData.widget ⟨2⟩), PyValue.int (-7)]).1 = Except.ok PyValue.none ∧
     (grab_zoom_keys inithardkeys emptyX true
        [PyValue.gobject (GObjectData.widget ⟨2⟩), PyValue.int (-7)]).2 2 "_HILDON_ZOOM_KEY_ATOM"
       = some ⟨XA_INTEGER, 32, [1]⟩) :=
  ⟨by decide, by decide,
   grab_zoom_keys_any_cint emptyX ⟨2⟩ (-7) (by decide) (by decide)⟩

/-- C10: the value written to the property depends on the grab argument
alone: two calls with the same grab value store the same property value,
whatever widget is passed, whatever the store previously held there and
whatever earlier calls did to it. -/
theorem grab_zoom_keys_write_deterministic (st1 st2 : XServerState)
    (w1 w2 : GtkWidget) (g : Int) (h1 : cIntMin ≤ g) (h2 : g ≤ cIntMax) :
    (grab_zoom_keys inithardkeys st1 true
        [PyValue.gobject (GObjectData.widget w1), PyValue.int g]).2 w1.window "_HILDON_ZOOM_KEY_ATOM"
      = (grab_zoom_keys inithardkeys st2 true
          [PyValue.gobject (GObjectData.widget w2), PyValue.int g]).2 w2.window
          "_HILDON_ZOOM_KEY_ATOM" := by
  simp [grab_zoom_keys, PyArg_ParseTuple_ObjInt, isInstanceOf, PyValue.typeOf,
    asGtkWidget, XChangeProperty, XInternAtom, inithardkeys, h1, h2]

/-- Witness for C10: an empty store and a store with a prior value of the
property, with different windows, end up with the same written value. -/
theorem grab_zoom_keys_write_deterministic_witness :
    cIntMin ≤ (1 : Int) ∧ (1 : Int) ≤ cIntMax ∧
    (grab_zoom_keys inithardkeys emptyX true
        [PyValue.gobject (GObjectData.widget ⟨4⟩), PyValue.int 1]).2 4 "_HILDON_ZOOM_KEY_ATOM"
      = (grab_zoom_keys inithardkeys demoX true
          [PyValue.gobject (GObjectData.widget ⟨7⟩), PyValue.int 1]).2 7 "_HILDON_ZOOM_KEY_ATOM" :=
  ⟨by decide, by decide,
   grab_zoom_keys_write_deterministic emptyX demoX ⟨4⟩ ⟨7⟩ 1
     (by decide) (by decide)⟩

end Hardkeys
